import Mathlib

/-!
Verification of the pyxshell stage library (`src/pyxshell/common.py`).

Each stage body is a Python generator over an upstream stream; we embed a
stream as a `List` of items and each generator as a structurally recursive
function producing the list of items it yields.  External collaborators
(the `re` regex engine, `os.path` / `os.walk`, `subprocess`) are taken as
parameters of the embedded functions, since the stage bodies only call
into them through thin adapters.
-/

namespace Pyxshell

/-- Python string slicing `s[:n]`, over the character data of the string. -/
def strTake (s : String) (n : Nat) : String :=
  String.mk (s.data.take n)

/-- Python string slicing `s[n:]`, over the character data of the string. -/
def strDrop (s : String) (n : Nat) : String :=
  String.mk (s.data.drop n)

/-- Python list slicing `data[i:]` for a possibly negative integer index:
a negative `i` counts from the end of the list, and an out-of-range start
clamps (to the whole list on the left, to the empty list on the right). -/
def pySliceFrom (data : List α) (i : Int) : List α :=
  if 0 ≤ i then data.drop i.toNat
  else data.drop (data.length - (-i).toNat)

/-- The loop of `head`: `count` starts at 0; for each pulled `line`, if
`size != None and count >= size` the generator raises `StopIteration`
(ending the stream), otherwise it yields `line`; then `count += 1`. -/
def headLoop (size : Option Nat) (count : Nat) : List α → List α
  | [] => []
  | line :: rest =>
    match size with
    | some s => if s ≤ count then [] else line :: headLoop size (count + 1) rest
    | none => line :: headLoop size (count + 1) rest

/-- `head(stdin, size=None)` from `common.py`: yield only a given number
of lines, then stop; with `size=None` yield all the lines. -/
def head (stdin : List α) (size : Option Nat) : List α :=
  headLoop size 0 stdin

/-- `tail(stdin, size=None)` from `common.py`: with `size=None` yield all
lines; otherwise expand the stream into a list `data` and yield
`data[len(data)-size:]` (Python slicing, including its negative-index
behaviour when `size > len(data)`). -/
def tail (stdin : List α) (size : Option Nat) : List α :=
  match size with
  | none => stdin
  | some n => pySliceFrom stdin ((stdin.length : Int) - (n : Int))

/-- `grep(stdin, pattern_src)` from `common.py`: yield exactly the lines
on which the compiled pattern's `search` succeeds.  The compiled regex is
embedded as its search predicate `search : String → Bool`, the behaviour
of the external `re` engine on the given pattern. -/
def grep (stdin : List String) (search : String → Bool) : List String :=
  match stdin with
  | [] => []
  | line :: rest =>
    if search line then line :: grep rest search else grep rest search

/-- Behaviour of Python `re.search` for an anchored-literal pattern
`'^' + lit` (no special characters in `lit`): the search succeeds exactly
when `lit` is a prefix of the line.  Modelled from the semantics of the
external `re` library, which the stage bodies call through `re.compile`. -/
def caretLitMatch (lit line : String) : Bool :=
  lit.data.isPrefixOf line.data

/-- Behaviour of Python `re.search` for an anchored-literal pattern
`'^' + lit`, returning the match's `(start, end)` span: the leftmost match
is at position 0 and spans the literal, when the literal is a prefix. -/
def caretLitSearch (lit line : String) : Option (Nat × Nat) :=
  if lit.data.isPrefixOf line.data then some (0, lit.data.length) else none

/-- Python substring containment `needle in hay`. -/
def strContains (needle hay : String) : Bool :=
  (List.range (hay.data.length + 1)).any
    (fun i => needle.data.isPrefixOf (hay.data.drop i))

/-- `is_in(line, patterns=[])` from `common.py`: scan the patterns and
return `True` at the first one contained in `line`, else `False`. -/
def is_in (line : String) (patterns : List String) : Bool :=
  match patterns with
  | [] => false
  | p :: ps => if strContains p line then true else is_in line ps

/-- `grep_in(stdin, patterns=[])` from `common.py`: yield the lines for
which `is_in(line, patterns)` holds. -/
def grep_in (stdin : List String) (patterns : List String) : List String :=
  match stdin with
  | [] => []
  | line :: rest =>
    if is_in line patterns then line :: grep_in rest patterns
    else grep_in rest patterns

/-- `sed(stdin, pattern_src, replacement, exclusive=False)` from
`common.py`: for each line, search the compiled pattern; on a match yield
`line[:match.start()] + match.expand(replacement) + line[match.end():]`;
on no match yield the line itself unless `exclusive`.  The compiled regex
is embedded as `search : String → Option (Nat × Nat)` giving the leftmost
match's span; `match.expand` on a replacement template with no group
references returns the replacement itself, so it is embedded verbatim. -/
def sed (stdin : List String) (search : String → Option (Nat × Nat))
    (replacement : String) (exclusive : Bool) : List String :=
  match stdin with
  | [] => []
  | line :: rest =>
    match search line with
    | some se =>
      (strTake line se.1 ++ replacement ++ strDrop line se.2) ::
        sed rest search replacement exclusive
    | none =>
      if exclusive then sed rest search replacement exclusive
      else line :: sed rest search replacement exclusive

/-- The line a single pass of the `sed` loop emits for a matching or
non-matching input line (the transformed line, or the line verbatim). -/
def sedLine (search : String → Option (Nat × Nat)) (replacement : String)
    (line : String) : String :=
  match search line with
  | some se => strTake line se.1 ++ replacement ++ strDrop line se.2
  | none => line

/-- `pretty_printer(stdin)` from `common.py`: pretty print each item and
pass it straight through.  The first component is the stream of yielded
items, the second the trace of items handed to `pprint.pprint`. -/
def pretty_printer (stdin : List α) : List α × List α :=
  match stdin with
  | [] => ([], [])
  | item :: rest =>
    let r := pretty_printer rest
    (item :: r.1, item :: r.2)

/-- The error `subprocess.CalledProcessError(returncode, cmd)` raised by
`sh` in strict mode. -/
structure CalledProcessError where
  returncode : Int
  cmd : List String
deriving Repr, DecidableEq

/-- Observable actions of the `sh` generator, in the order it performs
them: writing an upstream line to the process's stdin, closing that
stdin, yielding a line of the process's stdout, and waiting for the
process to terminate. -/
inductive ShEvent where
  | write : String → ShEvent
  | closeStdin : ShEvent
  | yieldLine : String → ShEvent
  | wait : ShEvent
deriving Repr, DecidableEq

/-- `sh(stdin, command, check_success=False)` from `common.py`, for the
piped form (upstream present and `command` given).  The external process
is embedded as `run : List String → List String × Int`, mapping the lines
written to its stdin to its stdout lines and exit status.  The body
writes each upstream line, closes the process's stdin, yields each output
line, and in a `finally` block always waits; if `check_success` and the
exit status is non-zero it then raises `CalledProcessError`.  The result
is the ordered event trace together with the error raised after it, if
any. -/
def sh (stdin : List String) (command : List String)
    (run : List String → List String × Int) (check_success : Bool) :
    List ShEvent × Option CalledProcessError :=
  let res := run stdin
  (stdin.map ShEvent.write ++
     ShEvent.closeStdin :: res.1.map ShEvent.yieldLine ++ [ShEvent.wait],
   if check_success && !(res.2 == 0) then some ⟨res.2, command⟩ else none)

/-- An item of the stream produced by `expand`: either a proper matched
path, or the spurious empty-generator object that the zero-pattern branch
`yield (i for i in [])` places on the stream. -/
inductive ExpandItem where
  | genObj : ExpandItem
  | path : String → ExpandItem
deriving Repr, DecidableEq

/-- `expand(filepatterns)` from `common.py`: when `len(filepatterns) == 0`
the body executes `yield (i for i in [])`, placing one item — an empty
generator object — on the stream; then for each pattern it walks the
pattern's base directory and yields every matching joined path.  The
external `os.path` split performed by `dir_file` is embedded as
`dirFile`, and the `os.walk` + `fnmatch.filter` + `os.path.join` loop as
`walkMatch` (base directory and filename glob to matched paths). -/
def expand (filepatterns : List String)
    (dirFile : String → String × String)
    (walkMatch : String → String → List String) : List ExpandItem :=
  (if filepatterns.length = 0 then [ExpandItem.genObj] else []) ++
    filepatterns.flatMap
      (fun p => (walkMatch (dirFile p).1 (dirFile p).2).map ExpandItem.path)

/-! ### Helper lemmas -/

/-- The `head` loop started at count `c` with limit `s` takes `s - c`
items. -/
theorem headLoop_some (s : Nat) (xs : List α) :
    ∀ c : Nat, headLoop (some s) c xs = xs.take (s - c) := by
  induction xs with
  | nil => intro c; simp [headLoop]
  | cons x xs ih =>
    intro c
    by_cases h : s ≤ c
    · simp [headLoop, h, Nat.sub_eq_zero_of_le h]
    · have hlt : c < s := Nat.lt_of_not_le h
      have hsucc : s - c = (s - (c + 1)) + 1 := by omega
      simp [headLoop, h, ih (c + 1), hsucc, List.take_succ_cons]

/-- The `head` loop with no limit passes every item through. -/
theorem headLoop_none (xs : List α) :
    ∀ c : Nat, headLoop (none : Option Nat) c xs = xs := by
  induction xs with
  | nil => intro c; simp [headLoop]
  | cons x xs ih => intro c; simp [headLoop, ih (c + 1)]

/-- `grep` is the filter of its stream by the pattern's search. -/
theorem grep_eq_filter (search : String → Bool) (stdin : List String) :
    grep stdin search = stdin.filter search := by
  induction stdin with
  | nil => rfl
  | cons line rest ih =>
    by_cases h : search line <;> simp [grep, h, ih, List.filter_cons]

/-- Non-exclusive `sed` maps `sedLine` over its stream. -/
theorem sed_nonexclusive_eq_map (search : String → Option (Nat × Nat))
    (replacement : String) (stdin : List String) :
    sed stdin search replacement false = stdin.map (sedLine search replacement) := by
  induction stdin with
  | nil => rfl
  | cons line rest ih =>
    cases h : search line <;> simp [sed, sedLine, h, ih]

/-- Exclusive `sed` keeps exactly the matching lines, transformed. -/
theorem sed_exclusive_eq_filterMap (search : String → Option (Nat × Nat))
    (replacement : String) (stdin : List String) :
    sed stdin search replacement true =
      stdin.filterMap (fun line =>
        match search line with
        | some se => some (strTake line se.1 ++ replacement ++ strDrop line se.2)
        | none => none) := by
  induction stdin with
  | nil => rfl
  | cons line rest ih =>
    cases h : search line <;> simp [sed, h, ih, List.filterMap_cons]

/-! ### Claim theorems -/

/-- Claim C1: for every finite input stream and every non-negative limit
`k`, `head` with `size = k` yields exactly `min k (length input)` items,
namely the first items of the input in their original order; in
particular `k = 0` yields an empty output, `range(10)` through `head`
with `size = 5` yields `[0,1,2,3,4]`, and `size = 0` yields `[]`. -/
theorem head_spec :
    (∀ (α : Type) (xs : List α) (k : Nat),
        head xs (some k) = xs.take k ∧
        (head xs (some k)).length = min k xs.length) ∧
    head (List.range 10) (some 5) = [0, 1, 2, 3, 4] ∧
    head (List.range 10) (some 0) = [] := by
  refine ⟨fun α xs k => ?_, by decide, by decide⟩
  have h : head xs (some k) = xs.take k := by
    simp [head, headLoop_some]
  exact ⟨h, by simp [h, List.length_take]⟩

/-- Claim C2 (code bug, evaluated at the failing input): `tail` over the
stream `[0,1,2]` (length 3) with `size = 4` yields only `[2]` — Python's
`data[len(data)-size:]` becomes `data[-1:]`, the last one item — whereas
the claim says an input shorter than the window yields all its items. -/
theorem tail_failing_eval :
    tail [0, 1, 2] (some 4) = [2] ∧ tail [0, 1, 2] (some 4) ≠ [0, 1, 2] := by
  constructor
  · decide
  · decide

/-- Claim C3: `grep` yields exactly the subsequence of input items on
which the pattern search succeeds — it equals the filter of its input by
the search predicate (hence every output item matches, every matching
input item appears, and the order is the input order with no reordering,
duplication or omission) — and `['cat','cabbage','conundrum','cathedral']`
filtered with the pattern `^ca` yields `['cat','cabbage','cathedral']`. -/
theorem grep_spec :
    (∀ (search : String → Bool) (stdin : List String),
        grep stdin search = stdin.filter search) ∧
    grep ["cat", "cabbage", "conundrum", "cathedral"] (caretLitMatch "ca") =
      ["cat", "cabbage", "cathedral"] := by
  refine ⟨fun search stdin => grep_eq_filter search stdin, by decide⟩

/-- Claim C4: non-exclusive `sed` yields one output item per input item —
the item with only its leftmost matched segment replaced and the rest
unchanged when the pattern matches, the item verbatim otherwise — and
exclusive `sed` yields only the transformed matching items; with pattern
`^ca` and replacement `fu`, `['cat','nomatch']` yields `['fut','nomatch']`
non-exclusively and `['fut']` exclusively. -/
theorem sed_spec :
    (∀ (search : String → Option (Nat × Nat)) (replacement : String)
        (stdin : List String),
        sed stdin search replacement false =
          stdin.map (sedLine search replacement) ∧
        sed stdin search replacement true =
          stdin.filterMap (fun line =>
            match search line with
            | some se =>
              some (strTake line se.1 ++ replacement ++ strDrop line se.2)
            | none => none)) ∧
    sed ["cat", "nomatch"] (caretLitSearch "ca") "fu" false =
      ["fut", "nomatch"] ∧
    sed ["cat", "nomatch"] (caretLitSearch "ca") "fu" true = ["fut"] := by
  refine ⟨fun search replacement stdin =>
    ⟨sed_nonexclusive_eq_map search replacement stdin,
     sed_exclusive_eq_filterMap search replacement stdin⟩, by decide, by decide⟩

/-- Claim C5: `sh` writes each upstream line to the process's stdin,
closes that stdin, yields every line of the process's output, and then
always waits for completion; with `check_success` set and a non-zero exit
status it raises `CalledProcessError` carrying the exit status and the
command, only after the whole output trace; without the flag a non-zero
exit status is ignored and the same output is produced with no error. -/
theorem sh_spec (stdin command : List String)
    (run : List String → List String × Int) (check_success : Bool) :
    (sh stdin command run check_success).1 =
      stdin.map ShEvent.write ++
        ShEvent.closeStdin :: (run stdin).1.map ShEvent.yieldLine ++
          [ShEvent.wait] ∧
    (sh stdin command run false).2 = none ∧
    (sh stdin command run true).2 =
      (if (run stdin).2 = 0 then none
       else some ⟨(run stdin).2, command⟩) := by
  refine ⟨rfl, rfl, ?_⟩
  by_cases h : (run stdin).2 = 0 <;> simp [sh, h]

/-- Claim C6 (code bug, evaluated at the failing input): `expand` given
zero patterns executes `yield (i for i in [])`, so its stream contains
exactly one item — an empty generator object — rather than no items as
the claim states. -/
theorem expand_empty_eval :
    ∀ (dirFile : String → String × String)
      (walkMatch : String → String → List String),
      expand [] dirFile walkMatch = [ExpandItem.genObj] ∧
      (expand [] dirFile walkMatch).length = 1 := by
  intro dirFile walkMatch
  exact ⟨rfl, rfl⟩

/-- Claim C8: `grep_in` invoked with an empty pattern list (its default)
yields an empty output — with no patterns, `is_in` never holds, so every
item is dropped. -/
theorem grep_in_empty (stdin : List String) :
    grep_in stdin [] = [] := by
  induction stdin with
  | nil => rfl
  | cons line rest ih => simp [grep_in, is_in, ih]

/-- Claim C9: `head` with `size = None` and `tail` with `size = None`
each yield every input item unchanged and in the original order, acting
as identity pass-throughs of the stream. -/
theorem head_tail_none_id :
    ∀ (α : Type) (stdin : List α),
      head stdin none = stdin ∧ tail stdin none = stdin := by
  intro α stdin
  exact ⟨headLoop_none stdin 0, rfl⟩

/-- Claim C10: `pretty_printer` yields exactly the items it receives,
unchanged and in the same order; its only additional effect is handing
each item to the printer, so on the stream's data it is an identity
pass-through. -/
theorem pretty_printer_id :
    ∀ (α : Type) (stdin : List α),
      (pretty_printer stdin).1 = stdin ∧ (pretty_printer stdin).2 = stdin := by
  intro α stdin
  induction stdin with
  | nil => exact ⟨rfl, rfl⟩
  | cons x xs ih => simp [pretty_printer, ih.1, ih.2]

end Pyxshell
